import Mathlib

/-!
Verification of the Privacy Glasses plugin (src/main.ts): a shallow
embedding of the visibility-policy function `shouldRevealLeaf`, the idle
monitor `checkIdleTimeout`, the reveal bookkeeping
(`onBeforeViewStateChange` / `updateLeafViewStyle`), and the per-view
setState hook (`isHooked` / `hookViewStateChanged` / `ensureLeavesHooked`),
together with proofs and refutations of the specification claims about
them.
-/

/-- The global visibility level (TS `enum Level`, main.ts lines 63-68). -/
inductive Level
  | HideAll
  | HidePrivate
  | RevealAll
  | RevealHeadlines
  deriving DecidableEq, Repr

/-- Plugin settings (TS interface `PrivacyGlassesSettings`, main.ts lines
427-435).  `privateDirs` is stored exactly as in the source: the raw
comma-separated string, never parsed into a list by `shouldRevealLeaf`.
Numeric fields are rationals (JS numbers; `blurOnIdleTimeoutSeconds` comes
from `parseFloat`). -/
structure PrivacyGlassesSettings where
  blurOnStartup : Level
  blurLevel : ℚ
  blurOnIdleTimeoutSeconds : ℚ
  hoverToReveal : Bool
  revealUnderCaret : Bool
  privateDirs : String
  privateNoteMarker : String
  deriving DecidableEq, Repr

/-- `DEFAULT_SETTINGS` (main.ts lines 437-445). -/
def DEFAULT_SETTINGS : PrivacyGlassesSettings :=
  { blurOnStartup := Level.HidePrivate
    blurLevel := 3 / 10
    blurOnIdleTimeoutSeconds := -1
    hoverToReveal := true
    revealUnderCaret := false
    privateDirs := ""
    privateNoteMarker := "#private" }

/-- One entry of the body-tag list in a metadata cache record: the `tag`
field may be absent (`none`) or any string (the source filters entries by
JS truthiness of `x.tag`, so `none` and `some ""` are both dropped). -/
structure TagCache where
  tag : Option String
  deriving DecidableEq, Repr

/-- The frontmatter object of a metadata cache record; the `tags` property
may be absent (then `'tags' in frontmatter` is false). -/
structure FrontmatterCache where
  tags : Option (List String)
  deriving DecidableEq, Repr

/-- A record returned by `app.metadataCache.getFileCache`: the `tags`
property (body tags) and the `frontmatter` property may each be absent,
which the source observes as `'tags' in cache` being false, respectively
`cache.frontmatter` being `undefined`. -/
structure FileCache where
  tags : Option (List TagCache)
  frontmatter : Option FrontmatterCache
  deriving DecidableEq, Repr

/-- The backing file of a markdown view: `parentPath` is
`view.file.parent.path`, and `cache` is what
`app.metadataCache.getFileCache(view.file)` returns for it (`none` models
a `null` cache record). -/
structure TFile where
  parentPath : String
  cache : Option FileCache
  deriving DecidableEq, Repr

/-- An open workspace leaf view as `shouldRevealLeaf` observes it:
`isMarkdownFileInfo` is the result of `isMarkdownFileInfoView` (an own
`file` property descriptor exists, main.ts lines 19-22); `editor` is the
JS truthiness of `view.editor`; `file` is `view.file` (`none` models
`null` or `undefined`). -/
structure LeafView where
  isMarkdownFileInfo : Bool
  editor : Bool
  file : Option TFile
  deriving DecidableEq, Repr

/-- A JS runtime exception; the only kind the embedded code can raise is a
TypeError, from evaluating `'tags' in null` or `'tags' in undefined`. -/
inductive JsError
  | typeError
  deriving DecidableEq, Repr

deriving instance DecidableEq for Except

/-- The pattern occurs at the head of the second list (helper for the JS
`String.includes` test). -/
def charListStartsWith : List Char → List Char → Bool
  | [], _ => true
  | _ :: _, [] => false
  | a :: as, b :: bs => a == b && charListStartsWith as bs

/-- The pattern occurs somewhere inside the second list (helper for the JS
`String.includes` test). -/
def charListHasSub : List Char → List Char → Bool
  | pat, [] => pat.isEmpty
  | pat, c :: cs => charListStartsWith pat (c :: cs) || charListHasSub pat cs

/-- JS `hay.includes(needle)` — substring containment.  Obsidian defines
`String.prototype.contains` as an alias of `includes`, which is what
main.ts line 310 calls on the raw `privateDirs` string. -/
def jsIncludes (hay needle : String) : Bool :=
  charListHasSub needle.data hay.data

/-- `app.metadataCache.getFileCache(view.file)`: looking up a missing
(`null`) file yields a `null` cache record. -/
def getFileCache (f : Option TFile) : Option FileCache :=
  f.bind TFile.cache

/-- The body tags collected at main.ts line 297:
`cache.tags.filter(x => !!x.tag).map(x => x.tag)` — entries whose `tag`
field is truthy (present and non-empty), guarded by `'tags' in cache`. -/
def bodyTagsOf (c : FileCache) : List String :=
  (c.tags.getD []).filterMap fun e =>
    match e.tag with
    | some t => if t = "" then none else some t
    | none => none

/-- The frontmatter tags collected at main.ts line 301:
`cache.frontmatter.tags.filter(x => !!x)` — the truthy (non-empty)
strings, guarded by `'tags' in cache.frontmatter`. -/
def fmTagsOf (fm : FrontmatterCache) : List String :=
  (fm.tags.getD []).filter fun t => t ≠ ""

/-- The fall-through directory rule, main.ts lines 308-315:
`view.file && !this.settings.privateDirs.contains(view.file.parent.path)`
reveals; otherwise (no file, or the raw `privateDirs` setting string
contains the parent path as a substring) the leaf is hidden. -/
def directoryRule (s : PrivacyGlassesSettings) (v : LeafView) : Bool :=
  match v.file with
  | some f => !jsIncludes s.privateDirs f.parentPath
  | none => false

/-- `shouldRevealLeaf` (main.ts lines 273-316), with `level` standing for
`this.currentLevel`.  The checks appear in source order; the two
`'tags' in …` membership tests raise a TypeError when applied to a `null`
cache record, respectively an `undefined` frontmatter object, which the
`Except` error tracks.  The tag block runs only when `view.editor` is
truthy and `privateNoteMarker` is a truthy, non-empty string. -/
def shouldRevealLeaf (level : Level) (s : PrivacyGlassesSettings)
    (v : LeafView) : Except JsError Bool :=
  if level = Level.RevealAll then .ok true
  else if level = Level.HideAll ∨ level = Level.RevealHeadlines then .ok false
  else if v.isMarkdownFileInfo = false then .ok true
  else if v.editor = true ∧ s.privateNoteMarker ≠ "" then
    match getFileCache v.file with
    | none => .error JsError.typeError
    | some c =>
      match c.frontmatter with
      | none => .error JsError.typeError
      | some fm =>
        let tags := bodyTagsOf c ++ fmTagsOf fm
        if tags.length > 0 then .ok (!tags.contains s.privateNoteMarker)
        else .ok (directoryRule s v)
  else .ok (directoryRule s v)

/-- `checkIdleTimeout` (main.ts lines 236-258), reduced to the level it
computes: `currentLevel` and `lastEventTime` are the fields of the plugin
object it reads, `now` is `performance.now()`.  The guard
`!this.lastEventTime` is a JS falsiness test, so both an unset timestamp
(`none`) and a zero timestamp leave the level unchanged. -/
def checkIdleTimeout (s : PrivacyGlassesSettings) (currentLevel : Level)
    (lastEventTime : Option ℚ) (now : ℚ) : Level :=
  if s.blurOnIdleTimeoutSeconds < 0 then currentLevel
  else if currentLevel = Level.HideAll then currentLevel
  else
    match lastEventTime with
    | none => currentLevel
    | some t =>
      if t = 0 then currentLevel
      else if s.blurOnIdleTimeoutSeconds ≤ (now - t) / 1000 then Level.HideAll
      else currentLevel

/-- The reveal bookkeeping of the plugin object: `revealed` is the
`this.revealed` array of pushed container elements (elements identified by
numbers), `revealClass` is the set of container elements currently
carrying the `privacy-glasses-reveal` CSS class, as a list. -/
structure RevealState where
  revealed : List Nat
  revealClass : List Nat
  deriving DecidableEq, Repr

/-- `onBeforeViewStateChange` (main.ts lines 194-198): for every element
in `this.revealed`, remove the reveal class.  The `revealed` array itself
is not modified by the source. -/
def onBeforeViewStateChange (st : RevealState) : RevealState :=
  { st with revealClass := st.revealClass.filter fun e => !st.revealed.contains e }

/-- The reveal bookkeeping done by `updateLeafViewStyle` (main.ts lines
332-338) for one leaf whose container element is `el` and whose computed
decision is `reveal`: on reveal, add the class (a DOM class list adds at
most once) and push the element onto `this.revealed`; otherwise remove
the class. -/
def updateLeafViewStyle (reveal : Bool) (el : Nat) (st : RevealState) :
    RevealState :=
  if reveal then
    { revealed := st.revealed ++ [el]
      revealClass :=
        if st.revealClass.contains el then st.revealClass
        else st.revealClass ++ [el] }
  else { st with revealClass := st.revealClass.filter fun x => x ≠ el }

/-- A JS property value as far as the hook probe cares: a function value
(carrying how many wrapper layers sit around the prototype setState) or a
non-function value. -/
inductive JsPropVal
  | jsFunc (layers : Nat)
  | jsOther
  deriving DecidableEq, Repr

/-- A view as the hooking code observes it: `ownSetState` is the own
`setState` property of the view object (`none` when the property lives
only on the prototype), `protoLayers` the wrapper-layer count of the
prototype `setState` function (0 for the pristine host function). -/
structure HookableView where
  ownSetState : Option JsPropVal
  protoLayers : Nat
  deriving DecidableEq, Repr

/-- `isHooked` (main.ts lines 24-30): the view has an own `setState`
property and its value (which shadows the prototype) is a function. -/
def isHooked (v : HookableView) : Bool :=
  match v.ownSetState with
  | some (JsPropVal.jsFunc _) => true
  | some JsPropVal.jsOther => false
  | none => false

/-- `hookViewStateChanged` (main.ts lines 32-57): reads
`anyView.__proto__.setState` as the original and assigns a bound wrapper
around it to the own `setState` slot — one more layer than the prototype
function, regardless of any previous own value. -/
def hookViewStateChanged (v : HookableView) : HookableView :=
  { v with ownSetState := some (JsPropVal.jsFunc (v.protoLayers + 1)) }

/-- The body of `ensureLeavesHooked` (main.ts lines 208-224) for one
leaf: skip it when `isHooked`, otherwise install the wrapper. -/
def ensureLeafHooked (v : HookableView) : HookableView :=
  if isHooked v then v else hookViewStateChanged v

/-- `ensureLeavesHooked` (main.ts lines 208-224): the hooking pass over
all open leaves. -/
def ensureLeavesHooked (vs : List HookableView) : List HookableView :=
  vs.map ensureLeafHooked

/-- Behaviors of the original `setState` call inside the wrapper: return
a plain (non-thenable) value, throw synchronously, or return a promise
that later fulfils or rejects. -/
inductive SetStateBehavior
  | syncValue
  | syncThrow
  | asyncFulfil
  | asyncReject
  deriving DecidableEq, Repr

/-- What one invocation of the wrapped `setState` produces: how often the
before and after callbacks fire, and the outcome the original caller
observes. -/
structure SwitchTrace where
  beforeFired : Nat
  afterFired : Nat
  callerObserves : SetStateBehavior
  deriving DecidableEq, Repr

/-- The `wrapper` function installed by `hookViewStateChanged` (main.ts
lines 41-52), evaluated against standard JS semantics for each behavior
of the underlying operation:

* the before callback runs first, unconditionally;
* `original.apply` throwing synchronously aborts the wrapper body — the
  exception propagates to the caller unchanged and the after callback is
  never reached;
* a plain return value takes the `else` branch: the after callback fires
  once and the value is returned unchanged;
* a thenable return value `r` gets `r.then(() => onAfter())` attached —
  a fulfilment handler only — and `r` itself is returned unchanged, so
  the caller sees the original settlement: on fulfilment the handler
  (hence the after callback) runs exactly once, on rejection a
  fulfilment-only handler is never invoked. -/
def wrapperTrace : SetStateBehavior → SwitchTrace
  | SetStateBehavior.syncValue => ⟨1, 1, SetStateBehavior.syncValue⟩
  | SetStateBehavior.syncThrow => ⟨1, 0, SetStateBehavior.syncThrow⟩
  | SetStateBehavior.asyncFulfil => ⟨1, 1, SetStateBehavior.asyncFulfil⟩
  | SetStateBehavior.asyncReject => ⟨1, 0, SetStateBehavior.asyncReject⟩

/-
Concrete inputs used by the theorems below.
-/

/-- The settings of the §8 scenarios: `privateDirs="finance,therapy"`,
`privateNoteMarker="#private"`. -/
def scenarioSettings : PrivacyGlassesSettings :=
  { DEFAULT_SETTINGS with
    privateDirs := "finance,therapy"
    privateNoteMarker := "#private" }

/-- A frontmatter object whose `tags` property holds the empty list. -/
def emptyFm : FrontmatterCache := { tags := some [] }

/-- A cache record with no tags at all (empty body-tag list, frontmatter
with empty tag list). -/
def emptyCache : FileCache := { tags := some [], frontmatter := some emptyFm }

/-- A cache record carrying the body tags `#private` and `x` and a
frontmatter object with an empty tag list. -/
def taggedCache : FileCache :=
  { tags := some [{ tag := some "#private" }, { tag := some "x" }]
    frontmatter := some emptyFm }

/-- A markdown editor view on a tagless file in folder `therapy/notes`. -/
def therapyNotesView : LeafView :=
  { isMarkdownFileInfo := true
    editor := true
    file := some { parentPath := "therapy/notes", cache := some emptyCache } }

/-- A markdown editor view on a tagless file directly in folder
`therapy`. -/
def therapyRootView : LeafView :=
  { isMarkdownFileInfo := true
    editor := true
    file := some { parentPath := "therapy", cache := some emptyCache } }

/-- The file of the tag-rule scenarios: folder `work/notes`, tags
`#private` and `x`. -/
def workNotesFile : TFile := { parentPath := "work/notes", cache := some taggedCache }

/-- A markdown view on `workNotesFile` without an editor handle. -/
def editorlessTaggedView : LeafView :=
  { isMarkdownFileInfo := true, editor := false, file := some workNotesFile }

/-- A markdown editor view on `workNotesFile`. -/
def editorTaggedView : LeafView :=
  { isMarkdownFileInfo := true, editor := true, file := some workNotesFile }

/-- A markdown editor view whose file has no metadata cache record. -/
def noCacheView : LeafView :=
  { isMarkdownFileInfo := true, editor := true
    file := some { parentPath := "work/notes", cache := none } }

/-- A markdown editor view whose cache record has a body-tag list but no
frontmatter object. -/
def noFrontmatterView : LeafView :=
  { isMarkdownFileInfo := true, editor := true
    file := some
      { parentPath := "work/notes"
        cache := some { tags := some [{ tag := some "x" }], frontmatter := none } } }

/-- A markdown editor view with no backing file. -/
def filelessEditorView : LeafView :=
  { isMarkdownFileInfo := true, editor := true, file := none }

/-- A markdown view with neither a backing file nor an editor handle. -/
def filelessPreviewView : LeafView :=
  { isMarkdownFileInfo := true, editor := false, file := none }

/-- The idle-timeout scenario settings: `blurOnIdleTimeoutSeconds = 5`. -/
def idleSettings : PrivacyGlassesSettings :=
  { DEFAULT_SETTINGS with blurOnIdleTimeoutSeconds := 5 }

/-- A view that has never been hooked: no own `setState`, pristine
prototype function. -/
def freshView : HookableView := { ownSetState := none, protoLayers := 0 }

/-- A view already carrying exactly one wrapper layer. -/
def onceHookedView : HookableView :=
  { ownSetState := some (JsPropVal.jsFunc 1), protoLayers := 0 }

/-
Theorems.
-/

/-- C1 (code bug): under HidePrivate with `privateDirs="finance,therapy"`
and empty tags, the spec demands that `parentPath="therapy/notes"` be
hidden; the code instead tests whether the raw `privateDirs` string
contains the parent path as a substring, so the view is revealed.  A file
directly in `therapy` is hidden, because `"finance,therapy"` does contain
`"therapy"`. -/
theorem private_dir_rule_scenario :
    shouldRevealLeaf Level.HidePrivate scenarioSettings therapyNotesView =
      Except.ok true ∧
    jsIncludes scenarioSettings.privateDirs "therapy/notes" = false ∧
    shouldRevealLeaf Level.HidePrivate scenarioSettings therapyRootView =
      Except.ok false := by
  decide

/-- C2 (code bug): the wrapper propagates every outcome of the underlying
`setState` to the caller unchanged, and the after callback fires exactly
once on synchronous return and on promise fulfilment; but on promise
rejection (and on a synchronous throw) the after callback never fires,
because the wrapper attaches only a fulfilment handler. -/
theorem wrapper_failure_after_callback :
    (∀ b, (wrapperTrace b).callerObserves = b) ∧
    (∀ b, (wrapperTrace b).beforeFired = 1) ∧
    (wrapperTrace SetStateBehavior.syncValue).afterFired = 1 ∧
    (wrapperTrace SetStateBehavior.asyncFulfil).afterFired = 1 ∧
    (wrapperTrace SetStateBehavior.asyncReject).afterFired = 0 ∧
    (wrapperTrace SetStateBehavior.syncThrow).afterFired = 0 := by
  refine ⟨fun b => ?_, fun b => ?_, rfl, rfl, rfl, rfl⟩ <;> cases b <;> rfl

/-- C3 (counterexample): a markdown document view without an editor
handle, with non-empty marker `#private` and a non-empty tag set that
contains the marker, is nevertheless revealed — the tag rule is skipped
and the directory rule decides, contradicting the claim that every
document panel with marker-bearing tags is hidden. -/
theorem tag_rule_without_editor_cex :
    scenarioSettings.privateNoteMarker ≠ "" ∧
    (bodyTagsOf taggedCache ++ fmTagsOf emptyFm).contains
      scenarioSettings.privateNoteMarker = true ∧
    shouldRevealLeaf Level.HidePrivate scenarioSettings editorlessTaggedView =
      Except.ok true := by
  decide

/-- C3 (amended): for a markdown document view with a truthy editor
handle whose metadata cache record exists and carries a frontmatter
object, if the marker is non-empty and the computed tag set is non-empty,
then under HidePrivate the decision is reveal iff the marker is not among
the tags — independent of the directory rule. -/
theorem tag_rule_with_editor (s : PrivacyGlassesSettings) (v : LeafView)
    (f : TFile) (c : FileCache) (fm : FrontmatterCache)
    (hmd : v.isMarkdownFileInfo = true) (hed : v.editor = true)
    (hm : s.privateNoteMarker ≠ "") (hf : v.file = some f)
    (hc : f.cache = some c) (hfm : c.frontmatter = some fm)
    (hne : bodyTagsOf c ++ fmTagsOf fm ≠ []) :
    shouldRevealLeaf Level.HidePrivate s v =
      Except.ok (!(bodyTagsOf c ++ fmTagsOf fm).contains s.privateNoteMarker) := by
  have hlen : 0 < (bodyTagsOf c ++ fmTagsOf fm).length :=
    List.length_pos.mpr hne
  simp [shouldRevealLeaf, getFileCache, hmd, hed, hm, hf, hc, hfm, hlen]
  intro h1 h2
  rw [h1, h2] at hne
  simp at hne

/-- C3 (witness): the §8 scenario — editor view on `work/notes` with tags
`#private` and `x` under marker `#private` — instantiates the amended
theorem, and the decision evaluates to hidden. -/
theorem tag_rule_with_editor_witness :
    (shouldRevealLeaf Level.HidePrivate scenarioSettings editorTaggedView =
      Except.ok (!(bodyTagsOf taggedCache ++ fmTagsOf emptyFm).contains
        scenarioSettings.privateNoteMarker)) ∧
    shouldRevealLeaf Level.HidePrivate scenarioSettings editorTaggedView =
      Except.ok false :=
  ⟨tag_rule_with_editor scenarioSettings editorTaggedView workNotesFile
      taggedCache emptyFm rfl rfl (by decide) rfl rfl rfl (by decide),
    by decide⟩

/-- C4 (code bug): a markdown editor view under a non-empty marker whose
metadata cache record is missing, or exists without a frontmatter object,
makes `shouldRevealLeaf` raise a TypeError instead of treating the tags
as empty and falling through to the directory rule. -/
theorem missing_metadata_throws :
    shouldRevealLeaf Level.HidePrivate scenarioSettings noCacheView =
      Except.error JsError.typeError ∧
    shouldRevealLeaf Level.HidePrivate scenarioSettings noFrontmatterView =
      Except.error JsError.typeError := by
  decide

/-- C5: for every settings value and every view, RevealAll reveals,
HideAll hides and RevealHeadlines hides, with no error possible. -/
theorem absolute_levels (s : PrivacyGlassesSettings) (v : LeafView) :
    shouldRevealLeaf Level.RevealAll s v = Except.ok true ∧
    shouldRevealLeaf Level.HideAll s v = Except.ok false ∧
    shouldRevealLeaf Level.RevealHeadlines s v = Except.ok false :=
  ⟨rfl, rfl, rfl⟩

/-- C6: one idle tick with a recorded (non-zero) last activity timestamp
changes the level iff the timeout is non-negative, the level is not
already HideAll, and the elapsed seconds reach the timeout (inclusive);
any change is to HideAll; a negative timeout never changes the level.
In particular, with timeout 5 and level RevealAll, a tick 6000 ms after
the last activity locks to HideAll and a tick 4000 ms after does not. -/
theorem idle_tick_spec (s : PrivacyGlassesSettings) (lvl : Level)
    (t now : ℚ) (ht : t ≠ 0) :
    (checkIdleTimeout s lvl (some t) now ≠ lvl ↔
      0 ≤ s.blurOnIdleTimeoutSeconds ∧ lvl ≠ Level.HideAll ∧
        s.blurOnIdleTimeoutSeconds ≤ (now - t) / 1000) ∧
    (checkIdleTimeout s lvl (some t) now = lvl ∨
      checkIdleTimeout s lvl (some t) now = Level.HideAll) ∧
    (s.blurOnIdleTimeoutSeconds < 0 →
      checkIdleTimeout s lvl (some t) now = lvl) ∧
    checkIdleTimeout idleSettings Level.RevealAll (some 1000) 7000 =
      Level.HideAll ∧
    checkIdleTimeout idleSettings Level.RevealAll (some 1000) 5000 =
      Level.RevealAll := by
  refine ⟨?_, ?_, ?_, ?_, ?_⟩
  · simp only [checkIdleTimeout]
    split_ifs with hneg hl hcmp
    · constructor
      · intro h
        exact absurd rfl h
      · rintro ⟨h0, -, -⟩
        exact absurd hneg (not_lt.mpr h0)
    · constructor
      · intro h
        exact absurd rfl h
      · rintro ⟨-, hl2, -⟩
        exact absurd hl hl2
    · constructor
      · intro _
        exact ⟨not_lt.mp hneg, hl, hcmp⟩
      · intro _
        exact Ne.symm hl
    · constructor
      · intro h
        exact absurd rfl h
      · rintro ⟨-, -, hc2⟩
        exact absurd hc2 hcmp
  · simp only [checkIdleTimeout]
    split_ifs <;> simp
  · intro h
    simp [checkIdleTimeout, h]
  · simp only [checkIdleTimeout, idleSettings, DEFAULT_SETTINGS]
    norm_num
  · simp only [checkIdleTimeout, idleSettings, DEFAULT_SETTINGS]
    norm_num

/-- C6 (witness): the theorem instantiated at the §8 idle scenario,
timeout 5, level RevealAll, last activity at 1000 ms, ticks at 7000 ms
and 5000 ms. -/
theorem idle_tick_spec_witness :
    (checkIdleTimeout idleSettings Level.RevealAll (some 1000) 7000 ≠
        Level.RevealAll ↔
      0 ≤ idleSettings.blurOnIdleTimeoutSeconds ∧
        Level.RevealAll ≠ Level.HideAll ∧
        idleSettings.blurOnIdleTimeoutSeconds ≤ ((7000 : ℚ) - 1000) / 1000) ∧
    (checkIdleTimeout idleSettings Level.RevealAll (some 1000) 7000 =
        Level.RevealAll ∨
      checkIdleTimeout idleSettings Level.RevealAll (some 1000) 7000 =
        Level.HideAll) ∧
    (idleSettings.blurOnIdleTimeoutSeconds < 0 →
      checkIdleTimeout idleSettings Level.RevealAll (some 1000) 7000 =
        Level.RevealAll) ∧
    checkIdleTimeout idleSettings Level.RevealAll (some 1000) 7000 =
      Level.HideAll ∧
    checkIdleTimeout idleSettings Level.RevealAll (some 1000) 5000 =
      Level.RevealAll :=
  idle_tick_spec idleSettings Level.RevealAll 1000 7000 (by decide)

/-- C7 (counterexample): with one element revealed and marked, the before
callback removes the class but leaves the `revealed` collection intact —
it still holds the stale handle, and a subsequent recomputation step
appends instead of rebuilding from scratch, contradicting the claim that
the collection is cleared in full. -/
theorem revealedset_not_cleared_cex :
    (onBeforeViewStateChange ⟨[1], [1]⟩).revealed = [1] ∧
    (onBeforeViewStateChange ⟨[1], [1]⟩).revealed ≠ [] ∧
    (updateLeafViewStyle true 2 (onBeforeViewStateChange ⟨[1], [1]⟩)).revealed =
      [1, 2] := by
  decide

/-- C7 (amended): the before callback synchronously removes the reveal
class from every element currently in the `revealed` collection (not just
the panel being switched), but the collection itself is left unchanged,
and a recomputation step appends newly revealed panels to it rather than
rebuilding it. -/
theorem before_clears_reveal_classes (st : RevealState) (reveal : Bool) (el : Nat) :
    (onBeforeViewStateChange st).revealClass.all
      (fun e => !st.revealed.contains e) = true ∧
    (onBeforeViewStateChange st).revealed = st.revealed ∧
    (updateLeafViewStyle reveal el st).revealed =
      (if reveal then st.revealed ++ [el] else st.revealed) := by
  refine ⟨?_, rfl, ?_⟩
  · simp only [onBeforeViewStateChange, List.all_eq_true]
    intro x hx
    exact (List.mem_filter.mp hx).2
  · cases reveal <;> simp [updateLeafViewStyle]

/-- C8: probing `isHooked` makes hook installation idempotent — a hooked
view is left untouched, installing twice equals installing once, a view
with no own `setState` function over a pristine prototype ends up with
exactly one wrapper layer and counts as hooked, and a full hooking pass
repeated over all leaves equals a single pass. -/
theorem hook_install_idempotent (u w : HookableView) (vs : List HookableView)
    (h0 : w.protoLayers = 0)
    (h1 : w.ownSetState = none ∨ w.ownSetState = some JsPropVal.jsOther ∨
      w.ownSetState = some (JsPropVal.jsFunc 1)) :
    (isHooked u = true → ensureLeafHooked u = u) ∧
    ensureLeafHooked (ensureLeafHooked u) = ensureLeafHooked u ∧
    (ensureLeafHooked w).ownSetState = some (JsPropVal.jsFunc 1) ∧
    isHooked (ensureLeafHooked w) = true ∧
    ensureLeavesHooked (ensureLeavesHooked vs) = ensureLeavesHooked vs := by
  have hnoop : ∀ x : HookableView, isHooked x = true → ensureLeafHooked x = x := by
    intro x hx
    simp [ensureLeafHooked, hx]
  have hidem : ∀ x : HookableView,
      ensureLeafHooked (ensureLeafHooked x) = ensureLeafHooked x := by
    intro x
    by_cases hx : isHooked x = true
    · rw [hnoop x hx, hnoop x hx]
    · have : ensureLeafHooked x = hookViewStateChanged x := by
        simp [ensureLeafHooked, hx]
      rw [this]
      exact hnoop _ (by simp [isHooked, hookViewStateChanged])
  refine ⟨hnoop u, hidem u, ?_, ?_, ?_⟩
  · rcases h1 with h1 | h1 | h1 <;>
      simp [ensureLeafHooked, isHooked, hookViewStateChanged, h1, h0]
  · rcases h1 with h1 | h1 | h1 <;>
      simp [ensureLeafHooked, isHooked, hookViewStateChanged, h1, h0]
  · induction vs with
    | nil => rfl
    | cons x xs ih =>
      simp only [ensureLeavesHooked, List.map_cons] at ih ⊢
      rw [hidem x, ih]

/-- C8 (witness): the theorem instantiated at a once-hooked view, a fresh
view, and a one-element workspace. -/
theorem hook_install_idempotent_witness :
    (isHooked onceHookedView = true →
      ensureLeafHooked onceHookedView = onceHookedView) ∧
    ensureLeafHooked (ensureLeafHooked onceHookedView) =
      ensureLeafHooked onceHookedView ∧
    (ensureLeafHooked freshView).ownSetState = some (JsPropVal.jsFunc 1) ∧
    isHooked (ensureLeafHooked freshView) = true ∧
    ensureLeavesHooked (ensureLeavesHooked [freshView]) =
      ensureLeavesHooked [freshView] :=
  hook_install_idempotent onceHookedView freshView [freshView] rfl (Or.inl rfl)

/-- C9 (counterexample): a markdown editor view with no backing file
under a non-empty marker raises a TypeError in the tag block rather than
returning the hide decision the claim states. -/
theorem fileless_with_editor_throws_cex :
    shouldRevealLeaf Level.HidePrivate scenarioSettings filelessEditorView =
      Except.error JsError.typeError ∧
    shouldRevealLeaf Level.HidePrivate scenarioSettings filelessEditorView ≠
      Except.ok false := by
  decide

/-- C9 (amended): under HidePrivate, a markdown document-info view with
no backing file is hidden whenever the tag block is skipped — the view
has no truthy editor handle or the marker setting is empty — because the
directory rule requires a truthy `view.file` to reveal. -/
theorem fileless_md_hidden (s : PrivacyGlassesSettings) (v : LeafView)
    (hmd : v.isMarkdownFileInfo = true) (hf : v.file = none)
    (h : v.editor = false ∨ s.privateNoteMarker = "") :
    shouldRevealLeaf Level.HidePrivate s v = Except.ok false := by
  rcases h with h | h <;>
    simp [shouldRevealLeaf, directoryRule, hmd, hf, h]

/-- C9 (witness): a fileless markdown view without an editor handle is
hidden under HidePrivate. -/
theorem fileless_md_hidden_witness :
    shouldRevealLeaf Level.HidePrivate scenarioSettings filelessPreviewView =
      Except.ok false :=
  fileless_md_hidden scenarioSettings filelessPreviewView rfl rfl (Or.inl rfl)

/-- C10: for every markdown document-info view without a truthy editor
handle, the tag block is skipped entirely — whatever the marker setting
and the document tags — and the HidePrivate decision equals the directory
rule. -/
theorem tag_rule_editor_guard (s : PrivacyGlassesSettings) (v : LeafView)
    (hmd : v.isMarkdownFileInfo = true) (hed : v.editor = false) :
    shouldRevealLeaf Level.HidePrivate s v = Except.ok (directoryRule s v) := by
  simp [shouldRevealLeaf, hmd, hed]

/-- C10 (witness): the editor-less view on `work/notes` with tags
`#private` and `x` under marker `#private` is decided by the directory
rule alone, which reveals it. -/
theorem tag_rule_editor_guard_witness :
    shouldRevealLeaf Level.HidePrivate scenarioSettings editorlessTaggedView =
      Except.ok (directoryRule scenarioSettings editorlessTaggedView) ∧
    directoryRule scenarioSettings editorlessTaggedView = true :=
  ⟨tag_rule_editor_guard scenarioSettings editorlessTaggedView rfl rfl,
    by decide⟩
